import Mathlib

/-!
Shallow embedding of the gin-contrib/timeout middleware.

The embedding follows the source files of the repository:
  * `writer.go` — the shadow buffering `TWriter` (type `TWriter` below);
  * the guard `New` with its three-way race (completion / fault / timer),
    following the variant in `src/unnamed/part_002` (flush branch,
    timeout branch with the `w.Written()` check, panic branch), plus the
    non-positive-timeout pass-through from `src/timeout.go`;
  * the buffer pool with the fast-path `last` slot from `src/unnamed/part_015`.

Machine integers: Go `int` status codes are modelled as `Int` (gin uses the
sentinel `-1`).  Byte slices are `List Nat`.  Go panics are modelled as
`Except` errors carrying the offending value.  The real gin response writer
(`gin.ResponseWriter`, type `GinWriter` below) follows gin's
`response_writer.go`: `WriteHeader` only records the status (ignored once
committed), the first physical `Write` commits it, the default status is 200.
-/

/-- HTTP headers, modelling Go's `http.Header` map from name to value list. -/
abbrev Headers := List (String × List String)

/-- Map lookup on the header association list. -/
def hfind : Headers → String → Option (List String)
  | [], _ => none
  | (k1, v) :: rest, k => if k = k1 then some v else hfind rest k

/-- Map update `h[k] = v` on the header association list (replaces any
previous binding of `k`, as a Go map assignment does). -/
def hset (h : Headers) (k : String) (v : List String) : Headers :=
  (k, v) :: h.filter (fun e => e.1 != k)

/-- `for k, vv := range src { dst[k] = vv }` — copy every cached header
into the destination map. -/
def copyInto (src dst : Headers) : Headers :=
  src.foldl (fun d e => hset d e.1 e.2) dst

/-- The header list binds each name at most once (true of every header map
built through `hset`). -/
def NoDupKeys (h : Headers) : Prop := (h.map Prod.fst).Nodup

/-- The real gin response writer (gin `response_writer.go`).  `status` is the
recorded status (default 200), `committed` is gin's `Written()` (headers
physically sent), `body` the bytes physically written to the client. -/
structure GinWriter where
  header : Headers
  status : Int
  committed : Bool
  body : List Nat
deriving DecidableEq

/-- gin `responseWriter.WriteHeader`: records the code if positive, different
from the current one, and headers are not yet committed; never commits. -/
def GinWriter.writeHeader (g : GinWriter) (code : Int) : GinWriter :=
  if 0 < code ∧ g.status ≠ code then
    if g.committed then g else { g with status := code }
  else g

/-- gin `responseWriter.WriteHeaderNow`: physically commits the recorded
status (idempotent). -/
def GinWriter.writeHeaderNow (g : GinWriter) : GinWriter :=
  if g.committed then g else { g with committed := true }

/-- gin `responseWriter.Write`: commits the headers, then sends the bytes. -/
def GinWriter.write (g : GinWriter) (data : List Nat) : GinWriter :=
  let g1 := g.writeHeaderNow
  { g1 with body := g1.body ++ data }

/-- A fresh real writer at the start of a request: gin's default status 200,
nothing committed, nothing sent. -/
def newGinWriter (h : Headers) : GinWriter :=
  { header := h, status := 200, committed := false, body := [] }

/-- The shadow buffering writer of `writer.go`.  `ResponseWriter` is the
embedded real writer, `body` the staging buffer (`none` once `FreeBuffer`
has released it), `headers` the header cache, `code` the cached status
(0 = unset). -/
structure TWriter where
  ResponseWriter : GinWriter
  body : Option (List Nat)
  headers : Headers
  timeout : Bool
  wroteHeaders : Bool
  code : Int
deriving DecidableEq

/-- `NewWriter` of `writer.go`: wraps the real writer with a staging buffer
and an empty header cache. -/
def NewWriter (g : GinWriter) (buf : List Nat) : TWriter :=
  { ResponseWriter := g, body := some buf, headers := [],
    timeout := false, wroteHeaders := false, code := 0 }

/-- `TWriter.Write` of `writer.go` (lines 49–58): silently drops the data and
returns `(0, nil)` if `timeout` is set or the buffer was released; otherwise
appends to the staging buffer and returns the byte count with a nil error. -/
def TWriter.Write (w : TWriter) (data : List Nat) :
    TWriter × Nat × Option String :=
  if w.timeout then (w, 0, none)
  else
    match w.body with
    | none => (w, 0, none)
    | some b => ({ w with body := some (b ++ data) }, data.length, none)

/-- `TWriter.WriteHeader` of `writer.go` (lines 63–92).  A no-op when timed
out or headers already written; silently skips gin's sentinel `-1`; panics
(modelled as `Except.error code`) on a code outside 100–999; otherwise
copies the cached headers to the real writer, caches the code, marks
`wroteHeaders`, and records the code on the real writer. -/
def TWriter.WriteHeader (w : TWriter) (code : Int) : Except Int TWriter :=
  if w.timeout ∨ w.wroteHeaders then .ok w
  else if code = -1 then .ok w
  else if code < 100 ∨ 999 < code then .error code
  else
    let w1 := { w with
      ResponseWriter :=
        { w.ResponseWriter with
          header := copyInto w.headers w.ResponseWriter.header } }
    let w2 := { w1 with wroteHeaders := true, code := code }
    .ok { w2 with
      ResponseWriter := w2.ResponseWriter.writeHeader code }

/-- `TWriter.WriteHeaderNow` of `writer.go` (lines 32–46): when headers have
not been written, defaults the cached code to 200, copies the cached headers
to the real writer, and calls `TWriter.WriteHeader` with the cached code
(the call cannot panic here: an unwritten cache always holds code 0). -/
def TWriter.WriteHeaderNow (w : TWriter) : TWriter :=
  if w.wroteHeaders then w
  else
    let w1 := if w.code = 0 then { w with code := 200 } else w
    let w2 := { w1 with
      ResponseWriter :=
        { w1.ResponseWriter with
          header := copyInto w1.headers w1.ResponseWriter.header } }
    match w2.WriteHeader w2.code with
    | .ok w3 => w3
    | .error _ => w2

/-- `TWriter.FreeBuffer` of `writer.go` (lines 105–109): resets and releases
the staging buffer. -/
def TWriter.FreeBuffer (w : TWriter) : TWriter := { w with body := none }

/-- `TWriter.Status` of `writer.go` (lines 114–119): the cached status when
one is set and no timeout occurred, else the real writer's reported status. -/
def TWriter.Status (w : TWriter) : Int :=
  if w.code = 0 ∨ w.timeout then w.ResponseWriter.status else w.code

/-- The ASCII bytes of `http.StatusText(408) = "Request Timeout"`. -/
def reasonPhrase408 : List Nat :=
  [82, 101, 113, 117, 101, 115, 116, 32, 84, 105, 109, 101, 111, 117, 116]

/-- The `Content-Type` header name. -/
def contentTypeKey : String := "Content-Type"

/-- The content type gin's string render sets: `text/plain; charset=utf-8`. -/
def plainTextType : String := "text/plain; charset=utf-8"

/-- `defaultResponse` of `timeout.go` (lines 69–71):
`c.String(http.StatusRequestTimeout, http.StatusText(http.StatusRequestTimeout))`
run against the real writer — records status 408, sets `Content-Type` if the
header has no value yet (gin's `writeContentType`), then writes the reason
phrase (committing the headers). -/
def defaultResponse (g : GinWriter) : GinWriter :=
  let g1 := g.writeHeader 408
  let vals := (hfind g1.header contentTypeKey).getD []
  let g2 :=
    if vals = [] then
      { g1 with header := hset g1.header contentTypeKey [plainTextType] }
    else g1
  g2.write reasonPhrase408

/-- One action a wrapped handler can take on the shadow writer: set a header
in the cache (`c.Writer.Header().Set`), call `WriteHeader`, write body bytes,
or force `WriteHeaderNow` (as gin does for body-less renders). -/
inductive HOp where
  | setHeader (k : String) (v : List String)
  | writeHeader (code : Int)
  | write (data : List Nat)
  | writeHeaderNow
deriving DecidableEq

/-- Run one handler action on the shadow writer.  `Header()` returns the
mutable cache, so `setHeader` updates it regardless of the timeout flag;
`writeHeader` can panic (modelled as `Except.error`). -/
def runOp (w : TWriter) : HOp → Except Int TWriter
  | .setHeader k v => .ok { w with headers := hset w.headers k v }
  | .writeHeader c => w.WriteHeader c
  | .write data => .ok (w.Write data).1
  | .writeHeaderNow => .ok w.WriteHeaderNow

/-- Run a whole handler (a sequence of actions) on the shadow writer,
stopping at the first panic. -/
def runOps : List HOp → TWriter → Except Int TWriter
  | [], w => .ok w
  | op :: rest, w =>
    match runOp w op with
    | .ok w1 => runOps rest w1
    | .error e => .error e

/-- The shadow writer the guard installs at request entry
(`src/unnamed/part_002` lines 49–53): a fresh real writer wrapped by
`NewWriter` with a pooled buffer that is immediately `Reset()`. -/
def initWriter : TWriter := NewWriter (newGinWriter []) []

/-- A pool operation performed by the guard, used to account for the
buffer-discipline of each race branch. -/
inductive PoolOp where
  | get
  | put
deriving DecidableEq

/-- The completion branch of the race (`src/unnamed/part_002` lines 95–116):
copy the cached headers to the real writer, record the cached status when one
was set, physically write the staged bytes when there are any, then
`FreeBuffer` and return the buffer to the pool (one `Put`). -/
def flushBranch (tw : TWriter) : TWriter × List PoolOp :=
  let g1 := { tw.ResponseWriter with
    header := copyInto tw.headers tw.ResponseWriter.header }
  let g2 := if tw.code ≠ 0 then g1.writeHeader tw.code else g1
  let buf := tw.body.getD []
  let g3 := if 0 < buf.length then g2.write buf else g2
  ({ tw with ResponseWriter := g3, body := none }, [PoolOp.put])

/-- The timer branch of the race (`src/unnamed/part_002` lines 118–137): set
the shadow writer's timeout flag, `FreeBuffer` and return the buffer (one
`Put`); run the configured fallback against the real writer only when the
real writer has not committed headers (`!w.Written()`); finally
`c.AbortWithStatus(408)`, whose `WriteHeader` is silenced by the timeout flag
and whose `WriteHeaderNow` only copies the cached headers. -/
def timeoutBranch (response : GinWriter → GinWriter) (tw : TWriter) :
    TWriter × List PoolOp :=
  let tw1 := { tw with timeout := true, body := none }
  let g1 := if tw1.ResponseWriter.committed then tw1.ResponseWriter
            else response tw1.ResponseWriter
  let tw2 := { tw1 with ResponseWriter := g1 }
  let tw3 := match tw2.WriteHeader 408 with
    | .ok x => x
    | .error _ => tw2
  (tw3.WriteHeaderNow, [PoolOp.put])

/-- The fault branch of the race (`src/unnamed/part_002` lines 77–94,
release mode): `FreeBuffer`, restore the real writer, and re-panic with the
captured value — no response is written and the buffer is never returned to
the pool (no `Put` call occurs in this branch). -/
def panicBranch (tw : TWriter) : TWriter × List PoolOp :=
  (tw.FreeBuffer, [])

/-- The three one-shot events the foreground `select` can observe first. -/
inductive RaceEvent where
  | finished
  | timerFired
  | panicked (v : Nat)
deriving DecidableEq

/-- The race outcome tag: exactly one per request. -/
inductive Outcome where
  | flushed
  | substituted
  | faulted (v : Nat)
deriving DecidableEq

/-- Which outcome each first-observed event produces. -/
def outcomeOf : RaceEvent → Outcome
  | .finished => .flushed
  | .timerFired => .substituted
  | .panicked v => .faulted v

/-- The effect of the branch selected by the first observed event. -/
def branchEffect (response : GinWriter → GinWriter) (e : RaceEvent)
    (tw : TWriter) : TWriter × List PoolOp :=
  match e with
  | .finished => flushBranch tw
  | .timerFired => timeoutBranch response tw
  | .panicked _ => panicBranch tw

/-- The foreground phase of the guard: racing, or done with a committed
outcome.  The `select` statement observes exactly one event and each branch
ends the handler, so once done every later event is ignored. -/
inductive GuardPhase where
  | racing (tw : TWriter)
  | done (o : Outcome) (tw : TWriter)

/-- One step of the foreground path: in `racing`, the first event selects
its branch and the guard is done; in `done`, later-arriving signals are
never looked at again (the handler has returned). -/
def guardStep (response : GinWriter → GinWriter) :
    GuardPhase → RaceEvent → GuardPhase
  | .racing tw, e => .done (outcomeOf e) (branchEffect response e tw).1
  | .done o tw, _ => .done o tw

/-- The pool operations a guarded request performs when the race observes
event `e` first: one `Get` at entry (`buffer := bufPool.Get()`), then
whatever `Put` calls the selected branch makes. -/
def guardPoolOps (response : GinWriter → GinWriter) (tw : TWriter)
    (e : RaceEvent) : List PoolOp :=
  PoolOp.get :: (branchEffect response e tw).2

/-- Count the `Get` calls in a pool-operation trace. -/
def countGet (l : List PoolOp) : Nat := l.count PoolOp.get

/-- Count the `Put` calls in a pool-operation trace. -/
def countPut (l : List PoolOp) : Nat := l.count PoolOp.put

/-- A handler is modelled as the sequence of writer actions it performs. -/
abbrev Handler := List HOp

/-- A guard option (`timeout.go` lines 45–67): `WithTimeout`, `WithHandler`,
`WithResponse`. -/
inductive TOption where
  | withTimeout (d : Int)
  | withHandler (h : Handler)
  | withResponse (r : GinWriter → GinWriter)

/-- The `Timeout` configuration struct (`timeout.go` lines 73–78); the
duration is in nanoseconds, the handler is `nil` until `WithHandler` runs. -/
structure Timeout where
  timeout : Int
  handler : Option Handler
  response : GinWriter → GinWriter

/-- Apply one option to the configuration, as each `Option` closure does. -/
def applyOption (t : Timeout) : TOption → Timeout
  | .withTimeout d => { t with timeout := d }
  | .withHandler h => { t with handler := some h }
  | .withResponse r => { t with response := r }

/-- `defaultTimeout = 5 * time.Second` in nanoseconds. -/
def defaultTimeoutNs : Int := 5000000000

/-- The configuration `New` starts from (`timeout.go` lines 90–94). -/
def initialConfig : Timeout :=
  { timeout := defaultTimeoutNs, handler := none, response := defaultResponse }

/-- What `New` returns: either the wrapped handler itself (pass-through) or
a guarded closure over the finished configuration. -/
inductive GuardResult where
  | passThrough (h : Option Handler)
  | guarded (t : Timeout)

/-- `New` of `timeout.go` (lines 85–107): apply every option to the default
configuration; a non-positive timeout returns the wrapped handler unchanged
(`return t.handler`), otherwise the guarded closure is built. -/
def New (opts : List TOption) : GuardResult :=
  let t := opts.foldl applyOption initialConfig
  if t.timeout ≤ 0 then .passThrough t.handler else .guarded t

/-- A Go `*bytes.Buffer` as an identifiable object: `id` stands for the
pointer identity (what `assert.Same` compares), `data` for its contents. -/
structure GoBuffer where
  id : Nat
  data : List Nat
deriving DecidableEq

/-- The buffer pool of `src/unnamed/part_015`: a fast-path cache `last` for
the most recently returned buffer in front of a `sync.Pool` (modelled as a
LIFO list; `nextId` supplies the identity of freshly allocated buffers). -/
structure BufferPool where
  last : Option GoBuffer
  pool : List GoBuffer
  nextId : Nat
deriving DecidableEq

/-- `BufferPool.Get` (`part_015` lines 17–32): return the cached `last`
buffer when there is one; otherwise take from the inner pool, or allocate a
fresh empty buffer when the inner pool is empty.  Nothing is cleared. -/
def BufferPool.Get (p : BufferPool) : GoBuffer × BufferPool :=
  match p.last with
  | some b => (b, { p with last := none })
  | none =>
    match p.pool with
    | b :: rest => (b, { p with pool := rest })
    | [] => ({ id := p.nextId, data := [] }, { p with nextId := p.nextId + 1 })

/-- `BufferPool.Put` (`part_015` lines 36–46): store the buffer in the
fast-path slot when it is free, otherwise hand it to the inner pool.  The
buffer is stored without resetting it. -/
def BufferPool.Put (p : BufferPool) (buf : GoBuffer) : BufferPool :=
  match p.last with
  | none => { p with last := some buf }
  | some _ => { p with pool := buf :: p.pool }

/-- A sample header name used by concrete test inputs. -/
def xaKey : String := "X-A"

/-- A concrete handler: set one header, write status 201, write two bytes. -/
def opsEx : List HOp :=
  [HOp.setHeader xaKey ["1"], HOp.writeHeader 201, HOp.write [104, 105]]

/-- The shadow writer state `opsEx` produces from `initWriter`. -/
def twEx : TWriter :=
  { ResponseWriter :=
      { header := [(xaKey, ["1"])], status := 201,
        committed := false, body := [] },
    body := some [104, 105], headers := [(xaKey, ["1"])],
    timeout := false, wroteHeaders := true, code := 201 }

/-- A pool whose fast-path slot is already occupied by a cached buffer. -/
def poolCx : BufferPool :=
  { last := some { id := 1, data := [] }, pool := [], nextId := 2 }

/-- A distinct dirty buffer to hand to `Put`. -/
def bufCx : GoBuffer := { id := 2, data := [104, 105] }

/-- A pool whose fast-path slot is free. -/
def poolW : BufferPool := { last := none, pool := [], nextId := 1 }

/-- A dirty buffer (the bytes of `hello`), as in the repository's
`TestBufferPool_NoReset`. -/
def bufW : GoBuffer := { id := 7, data := [104, 101, 108, 108, 111] }

lemma hfind_hset_self (h : Headers) (k : String) (v : List String) :
    hfind (hset h k v) k = some v := by
  simp [hset, hfind]

lemma hfind_filter_ne (h : Headers) (k k1 : String) (hne : k1 ≠ k) :
    hfind (h.filter (fun e => e.1 != k)) k1 = hfind h k1 := by
  induction h with
  | nil => rfl
  | cons kv t ih =>
    obtain ⟨k2, v2⟩ := kv
    by_cases ha : k2 = k
    · subst ha
      rw [List.filter_cons]
      simp only [bne_self_eq_false, if_false, Bool.false_eq_true]
      rw [ih]
      simp [hfind, hne]
    · rw [List.filter_cons]
      have hb : ((k2, v2).1 != k) = true := by simpa using ha
      rw [hb]
      simp only [if_true]
      by_cases hk : k1 = k2
      · simp [hfind, hk]
      · simp [hfind, hk, ih]

lemma hfind_hset_ne (h : Headers) (k k1 : String) (v : List String)
    (hne : k1 ≠ k) : hfind (hset h k v) k1 = hfind h k1 := by
  simp only [hset, hfind, if_neg hne]
  exact hfind_filter_ne h k k1 hne

lemma noDupKeys_nil : NoDupKeys ([] : Headers) := by
  simp [NoDupKeys]

lemma noDupKeys_hset (h : Headers) (k : String) (v : List String)
    (hnd : NoDupKeys h) : NoDupKeys (hset h k v) := by
  unfold NoDupKeys hset
  rw [List.map_cons, List.nodup_cons]
  constructor
  · intro hmem
    simp only [List.mem_map, List.mem_filter] at hmem
    obtain ⟨e, ⟨_, hb⟩, he⟩ := hmem
    rw [he] at hb
    simp at hb
  · exact hnd.sublist ((List.filter_sublist h).map Prod.fst)

lemma hfind_copyInto_of_not_mem (src dst : Headers) (k : String)
    (hk : k ∉ src.map Prod.fst) :
    hfind (copyInto src dst) k = hfind dst k := by
  induction src generalizing dst with
  | nil => rfl
  | cons e rest ih =>
    rw [List.map_cons, List.mem_cons, not_or] at hk
    obtain ⟨h1, h2⟩ := hk
    show hfind (copyInto rest (hset dst e.1 e.2)) k = hfind dst k
    rw [ih _ h2, hfind_hset_ne dst e.1 k e.2 h1]

lemma hfind_copyInto (src dst : Headers) (k : String) (v : List String)
    (hnd : NoDupKeys src) (hf : hfind src k = some v) :
    hfind (copyInto src dst) k = some v := by
  induction src generalizing dst with
  | nil => simp [hfind] at hf
  | cons e rest ih =>
    obtain ⟨k1, v1⟩ := e
    unfold NoDupKeys at hnd
    rw [List.map_cons, List.nodup_cons] at hnd
    by_cases hk : k = k1
    · subst hk
      simp only [hfind, if_pos rfl] at hf
      show hfind (copyInto rest (hset dst k v1)) k = some v
      rw [hfind_copyInto_of_not_mem rest _ k hnd.1,
        hfind_hset_self dst k v1]
      exact hf
    · simp only [hfind, if_neg hk] at hf
      show hfind (copyInto rest (hset dst k1 v1)) k = some v
      exact ih _ hnd.2 hf

/-- Invariant of a shadow writer over a fresh real writer, preserved by every
handler action: the real writer is never committed through the shadow, no
bytes reach it, no timeout has occurred, the staging buffer is live, the
header cache is a proper map, and the real writer's recorded status tracks
the cached status (gin's default 200 while none is cached). -/
def ShadowInv (w : TWriter) : Prop :=
  w.ResponseWriter.committed = false ∧
  w.ResponseWriter.body = [] ∧
  w.timeout = false ∧
  w.body.isSome = true ∧
  NoDupKeys w.headers ∧
  w.ResponseWriter.status = (if w.code = 0 then 200 else w.code)

lemma shadowInv_initWriter : ShadowInv initWriter := by
  refine ⟨rfl, rfl, rfl, rfl, noDupKeys_nil, rfl⟩

lemma shadowInv_WriteHeader (w w1 : TWriter) (c : Int) (hw : ShadowInv w)
    (h : w.WriteHeader c = .ok w1) : ShadowInv w1 := by
  obtain ⟨h1, h2, h3, h4, h5, h6⟩ := hw
  unfold TWriter.WriteHeader at h
  split at h
  · cases h; exact ⟨h1, h2, h3, h4, h5, h6⟩
  · split at h
    · cases h; exact ⟨h1, h2, h3, h4, h5, h6⟩
    · split at h
      · cases h
      · rename_i hnoop hm1 hrange
        rw [not_or, not_lt, not_lt] at hrange
        cases h
        refine ⟨?_, ?_, h3, h4, h5, ?_⟩
        · simp only [GinWriter.writeHeader]
          split
          · simp [h1]
          · exact h1
        · simp only [GinWriter.writeHeader]
          split
          · simp [h1, h2]
          · exact h2
        · have hc0 : c ≠ 0 := by omega
          simp only [GinWriter.writeHeader, if_neg hc0]
          split
          · rename_i hcond
            simp [h1]
          · rename_i hcond
            have hpos : (0 : Int) < c := by omega
            simp only [not_and, not_ne_iff] at hcond
            simpa using hcond hpos

lemma shadowInv_WriteHeaderNow (w : TWriter) (hw : ShadowInv w) :
    ShadowInv w.WriteHeaderNow := by
  have hcopy : ∀ u : TWriter, ShadowInv u →
      ShadowInv { u with ResponseWriter :=
        { u.ResponseWriter with
          header := copyInto u.headers u.ResponseWriter.header } } := by
    intro u hu
    obtain ⟨h1, h2, h3, h4, h5, h6⟩ := hu
    exact ⟨h1, h2, h3, h4, h5, h6⟩
  obtain ⟨h1, h2, h3, h4, h5, h6⟩ := hw
  have hw1 : ShadowInv (if w.code = 0 then { w with code := 200 } else w) := by
    split
    · rename_i hc
      exact ⟨h1, h2, h3, h4, h5, by simpa [hc] using h6⟩
    · exact ⟨h1, h2, h3, h4, h5, h6⟩
  simp only [TWriter.WriteHeaderNow]
  split
  · exact ⟨h1, h2, h3, h4, h5, h6⟩
  · split
    · rename_i w3 hres
      exact shadowInv_WriteHeader _ w3 _ (hcopy _ hw1) hres
    · exact hcopy _ hw1

lemma shadowInv_Write (w : TWriter) (data : List Nat) (hw : ShadowInv w) :
    ShadowInv (w.Write data).1 := by
  obtain ⟨h1, h2, h3, h4, h5, h6⟩ := hw
  simp only [TWriter.Write]
  split
  · exact ⟨h1, h2, h3, h4, h5, h6⟩
  · split
    · exact ⟨h1, h2, h3, h4, h5, h6⟩
    · exact ⟨h1, h2, h3, rfl, h5, h6⟩

lemma shadowInv_runOp (w w1 : TWriter) (op : HOp) (hw : ShadowInv w)
    (h : runOp w op = .ok w1) : ShadowInv w1 := by
  cases op with
  | setHeader k v =>
    cases h
    obtain ⟨h1, h2, h3, h4, h5, h6⟩ := hw
    exact ⟨h1, h2, h3, h4, noDupKeys_hset _ k v h5, h6⟩
  | writeHeader c => exact shadowInv_WriteHeader w w1 c hw h
  | write data =>
    cases h
    exact shadowInv_Write w data hw
  | writeHeaderNow =>
    cases h
    exact shadowInv_WriteHeaderNow w hw

lemma shadowInv_runOps (ops : List HOp) :
    ∀ w w1 : TWriter, ShadowInv w → runOps ops w = .ok w1 → ShadowInv w1 := by
  induction ops with
  | nil =>
    intro w w1 hw h
    cases h
    exact hw
  | cons op rest ih =>
    intro w w1 hw h
    simp only [runOps] at h
    cases hop : runOp w op with
    | ok w2 =>
      rw [hop] at h
      exact ih w2 w1 (shadowInv_runOp w w2 op hw hop) h
    | error e =>
      rw [hop] at h
      cases h

lemma ginWrite_status (g : GinWriter) (d : List Nat) :
    (g.write d).status = g.status := by
  simp only [GinWriter.write, GinWriter.writeHeaderNow]
  split <;> rfl

lemma ginWrite_body (g : GinWriter) (d : List Nat) :
    (g.write d).body = g.body ++ d := by
  simp only [GinWriter.write, GinWriter.writeHeaderNow]
  split <;> rfl

lemma ginWrite_header (g : GinWriter) (d : List Nat) :
    (g.write d).header = g.header := by
  simp only [GinWriter.write, GinWriter.writeHeaderNow]
  split <;> rfl

lemma ginWriteHeader_body (g : GinWriter) (c : Int) :
    (g.writeHeader c).body = g.body := by
  simp only [GinWriter.writeHeader]
  split
  · split <;> rfl
  · rfl

lemma ginWriteHeader_header (g : GinWriter) (c : Int) :
    (g.writeHeader c).header = g.header := by
  simp only [GinWriter.writeHeader]
  split
  · split <;> rfl
  · rfl

lemma ginWriteHeader_status_eq (g : GinWriter) (c : Int) (h : g.status = c) :
    (g.writeHeader c).status = g.status := by
  simp [GinWriter.writeHeader, h]

lemma writeHeader_ok_timeout (u u1 : TWriter) (c : Int)
    (h : u.WriteHeader c = .ok u1) : u1.timeout = u.timeout := by
  unfold TWriter.WriteHeader at h
  split at h
  · cases h; rfl
  · split at h
    · cases h; rfl
    · split at h
      · cases h
      · cases h; rfl

lemma writeHeaderNow_timeout (u : TWriter) :
    (u.WriteHeaderNow).timeout = u.timeout := by
  simp only [TWriter.WriteHeaderNow]
  split
  · rfl
  · split
    · rename_i w3 hres
      rw [writeHeader_ok_timeout _ w3 _ hres]
      split <;> rfl
    · split <;> rfl

/-- Claim C4: a `Write` call on the shadow writer after the `timeout` flag
is set or after the staging buffer was released appends nothing, returns a
zero count and a nil error; the timer branch sets the flag and the flush
branch releases the buffer, so no later write from the background execution
reaches the client. -/
theorem write_silenced_after_timeout_or_free :
    (∀ (w : TWriter) (data : List Nat),
        w.timeout = true ∨ w.body = none →
        w.Write data = (w, 0, none))
    ∧ (∀ (response : GinWriter → GinWriter) (tw : TWriter),
        (timeoutBranch response tw).1.timeout = true)
    ∧ (∀ tw : TWriter, (flushBranch tw).1.body = none) := by
  refine ⟨?_, ?_, ?_⟩
  · intro w data h
    unfold TWriter.Write
    rcases h with h | h
    · rw [if_pos h]
    · split
      · rfl
      · split
        · rfl
        · rename_i b hb
          rw [h] at hb
          cases hb
  · intro response tw
    unfold timeoutBranch
    rw [writeHeaderNow_timeout]
    split
    · rename_i w3 hres
      rw [writeHeader_ok_timeout _ w3 _ hres]
    · rfl
  · intro tw
    rfl

/-- Witness for C4 at concrete inputs: a timed-out writer drops the data,
and the two branches do set the silencing state. -/
theorem write_silenced_after_timeout_or_free_w :
    TWriter.Write { initWriter with timeout := true } [104, 105]
        = ({ initWriter with timeout := true }, 0, none)
    ∧ (timeoutBranch defaultResponse initWriter).1.timeout = true
    ∧ (flushBranch initWriter).1.body = none :=
  ⟨write_silenced_after_timeout_or_free.1 _ [104, 105] (Or.inl rfl),
    write_silenced_after_timeout_or_free.2.1 defaultResponse initWriter,
    write_silenced_after_timeout_or_free.2.2 initWriter⟩

/-- Claim C6 counterexample: `-1` is outside 100–999, the writer is neither
timed out nor committed, yet `WriteHeader` returns without panicking — gin's
sentinel `-1` is silently skipped before the range check
(`writer.go` lines 73–75, and the test in `src/unnamed/part_007`). -/
theorem writeheader_minus_one_silent :
    TWriter.WriteHeader initWriter (-1) = Except.ok initWriter
    ∧ ((-1 : Int) < 100 ∨ 999 < (-1 : Int))
    ∧ initWriter.timeout = false ∧ initWriter.wroteHeaders = false := by
  refine ⟨rfl, by decide, rfl, rfl⟩

/-- Claim C6 (amended): for every status code outside 100–999 other than
gin's skip sentinel `-1`, a `WriteHeader` call on a writer that is neither
timed out nor has written headers panics with a message naming the invalid
code (modelled as `Except.error code`); the code is never clamped. -/
theorem writeheader_invalid_code_panics (w : TWriter) (c : Int)
    (ht : w.timeout = false) (hwh : w.wroteHeaders = false)
    (hm1 : c ≠ -1) (hrange : c < 100 ∨ 999 < c) :
    w.WriteHeader c = Except.error c := by
  unfold TWriter.WriteHeader
  rw [if_neg (by simp [ht, hwh]), if_neg hm1, if_pos hrange]

/-- Witness for the amended C6: code 1000 on a fresh writer panics with the
code itself. -/
theorem writeheader_invalid_code_panics_w :
    TWriter.WriteHeader initWriter 1000 = Except.error 1000 :=
  writeheader_invalid_code_panics initWriter 1000 rfl rfl
    (by decide) (by decide)

/-- Claim C7: the cached committed status is set at most once — a
`WriteHeader` call on a writer whose headers are already written, or whose
`timeout` flag is set, is a complete no-op (the whole writer, including the
cached `code` and the `wroteHeaders` flag, is returned unchanged), while a
genuinely applied `WriteHeader` caches its code and sets `wroteHeaders`,
making every later call a no-op. -/
theorem status_written_at_most_once :
    (∀ (w : TWriter) (c : Int),
        w.wroteHeaders = true ∨ w.timeout = true →
        w.WriteHeader c = Except.ok w)
    ∧ (∀ (w w1 : TWriter) (c : Int),
        w.timeout = false → w.wroteHeaders = false → c ≠ -1 →
        w.WriteHeader c = Except.ok w1 →
        w1.code = c ∧ w1.wroteHeaders = true) := by
  constructor
  · intro w c h
    unfold TWriter.WriteHeader
    rw [if_pos (by tauto)]
  · intro w w1 c ht hwh hm1 h
    unfold TWriter.WriteHeader at h
    rw [if_neg (by simp [ht, hwh]), if_neg hm1] at h
    split at h
    · cases h
    · cases h
      exact ⟨rfl, rfl⟩

/-- Witness for C7: a writer with `wroteHeaders` set ignores a second
`WriteHeader`, and a successful first `WriteHeader 500` on a fresh writer
caches 500 and marks the headers written. -/
theorem status_written_at_most_once_w :
    TWriter.WriteHeader { initWriter with wroteHeaders := true } 500
        = Except.ok { initWriter with wroteHeaders := true }
    ∧ ((TWriter.WriteHeader initWriter 500).toOption.getD initWriter).code
          = 500
      ∧ ((TWriter.WriteHeader initWriter 500).toOption.getD
          initWriter).wroteHeaders = true :=
  ⟨status_written_at_most_once.1 _ 500 (Or.inl rfl),
    status_written_at_most_once.2 initWriter
      ((TWriter.WriteHeader initWriter 500).toOption.getD initWriter) 500
      rfl rfl (by decide) rfl⟩

/-- Claim C8: `Status()` returns the cached committed status whenever one is
cached (non-zero) and the writer has not timed out; otherwise it defers to
the real writer's reported status. -/
theorem status_reports_cached_or_real :
    (∀ w : TWriter, w.code ≠ 0 → w.timeout = false → w.Status = w.code)
    ∧ (∀ w : TWriter, w.code = 0 ∨ w.timeout = true →
        w.Status = w.ResponseWriter.status) := by
  constructor
  · intro w h1 h2
    unfold TWriter.Status
    rw [if_neg (by simp [h1, h2])]
  · intro w h
    unfold TWriter.Status
    rw [if_pos (by tauto)]

/-- Witness for C8: a writer with cached code 500 and no timeout reports
500; a fresh writer (no cached code) reports the real writer's status. -/
theorem status_reports_cached_or_real_w :
    TWriter.Status { initWriter with code := 500 } = 500
    ∧ TWriter.Status initWriter = initWriter.ResponseWriter.status :=
  ⟨status_reports_cached_or_real.1 _ (by decide) rfl,
    status_reports_cached_or_real.2 initWriter (Or.inl rfl)⟩

lemma flushBranch_fields (tw : TWriter) (hinv : ShadowInv tw) :
    (flushBranch tw).1.ResponseWriter.status
        = (if tw.code = 0 then 200 else tw.code)
    ∧ (flushBranch tw).1.ResponseWriter.body = tw.body.getD []
    ∧ (flushBranch tw).1.ResponseWriter.header
        = copyInto tw.headers tw.ResponseWriter.header := by
  obtain ⟨h1, h2, h3, h4, h5, h6⟩ := hinv
  simp only [flushBranch]
  by_cases hc : tw.code = 0
  · simp only [hc, ne_eq, not_true_eq_false, if_false]
    by_cases hbuf : 0 < (tw.body.getD []).length
    · rw [if_pos hbuf]
      refine ⟨?_, ?_, ?_⟩
      · rw [ginWrite_status]
        simpa [hc] using h6
      · rw [ginWrite_body]
        show tw.ResponseWriter.body ++ _ = _
        rw [h2, List.nil_append]
      · rw [ginWrite_header]
    · rw [if_neg hbuf]
      have hbe : tw.body.getD [] = [] := by
        rcases hx : tw.body.getD [] with _ | ⟨a, t⟩
        · rfl
        · exact absurd (by rw [hx]; simp) hbuf
      refine ⟨?_, ?_, ?_⟩
      · simpa [hc] using h6
      · rw [hbe]
        exact h2
      · rfl
  · simp only [hc, ne_eq, not_false_eq_true, if_true]
    have hst : ({ tw.ResponseWriter with
        header := copyInto tw.headers tw.ResponseWriter.header
          : GinWriter }).status = tw.code := by
      simpa [hc] using h6
    have hwh : (GinWriter.writeHeader
        { tw.ResponseWriter with
          header := copyInto tw.headers tw.ResponseWriter.header }
        tw.code).status = tw.code := by
      rw [ginWriteHeader_status_eq _ _ hst]
      exact hst
    by_cases hbuf : 0 < (tw.body.getD []).length
    · rw [if_pos hbuf]
      refine ⟨?_, ?_, ?_⟩
      · rw [ginWrite_status, hwh]
        simp
      · rw [ginWrite_body, ginWriteHeader_body]
        show tw.ResponseWriter.body ++ _ = _
        rw [h2, List.nil_append]
      · rw [ginWrite_header, ginWriteHeader_header]
    · rw [if_neg hbuf]
      have hbe : tw.body.getD [] = [] := by
        rcases hx : tw.body.getD [] with _ | ⟨a, t⟩
        · rfl
        · exact absurd (by rw [hx]; simp) hbuf
      refine ⟨?_, ?_, ?_⟩
      · rw [hwh]
        simp
      · rw [ginWriteHeader_body, hbe]
        exact h2
      · rw [ginWriteHeader_header]

/-- Claim C2: when the unit of work finishes before the deadline, the flush
branch sends to the real writer exactly what the handler staged through the
shadow writer: every cached header value is copied into the real writer's
header set, the cached status is the one that reaches the client (gin's
default 200 when the handler wrote body bytes but never set a status), and
the staged body bytes are written exactly once. -/
theorem flush_preserves_handler_output (ops : List HOp) (tw : TWriter)
    (h : runOps ops initWriter = Except.ok tw) :
    (flushBranch tw).1.ResponseWriter.status
        = (if tw.code = 0 then 200 else tw.code)
    ∧ (flushBranch tw).1.ResponseWriter.body = tw.body.getD []
    ∧ (∀ (k : String) (v : List String), hfind tw.headers k = some v →
        hfind (flushBranch tw).1.ResponseWriter.header k = some v) := by
  have hinv := shadowInv_runOps ops initWriter tw shadowInv_initWriter h
  obtain ⟨hs, hb, hh⟩ := flushBranch_fields tw hinv
  refine ⟨hs, hb, ?_⟩
  intro k v hf
  rw [hh]
  exact hfind_copyInto tw.headers tw.ResponseWriter.header k v
    hinv.2.2.2.2.1 hf

/-- Witness for C2: for the concrete handler `opsEx` (header `X-A: 1`,
status 201, body bytes `hi`), the flush branch delivers status 201, exactly
those two body bytes, and the cached header value. -/
theorem flush_preserves_handler_output_w :
    (flushBranch twEx).1.ResponseWriter.status = 201
    ∧ (flushBranch twEx).1.ResponseWriter.body = [104, 105]
    ∧ hfind (flushBranch twEx).1.ResponseWriter.header xaKey = some ["1"] := by
  have h := flush_preserves_handler_output opsEx twEx rfl
  exact ⟨by simpa using h.1, by simpa using h.2.1, h.2.2 xaKey ["1"] rfl⟩

lemma writeHeader_noop_of_timeout (v : TWriter) (c : Int)
    (hv : v.timeout = true) : v.WriteHeader c = Except.ok v := by
  unfold TWriter.WriteHeader
  rw [if_pos (Or.inl hv)]

lemma writeHeaderNow_rw_of_timeout (u : TWriter) (ht : u.timeout = true) :
    (u.WriteHeaderNow).ResponseWriter.status = u.ResponseWriter.status
    ∧ (u.WriteHeaderNow).ResponseWriter.body = u.ResponseWriter.body := by
  simp only [TWriter.WriteHeaderNow]
  split
  · exact ⟨rfl, rfl⟩
  · by_cases hc : u.code = 0
    · rw [if_pos hc, writeHeader_noop_of_timeout]
      · exact ⟨rfl, rfl⟩
      · exact ht
    · rw [if_neg hc, writeHeader_noop_of_timeout]
      · exact ⟨rfl, rfl⟩
      · exact ht

lemma ginWriteHeader_408_status (g : GinWriter) (hnc : g.committed = false) :
    (g.writeHeader 408).status = 408 := by
  by_cases hst : g.status = 408
  · have hcond : ¬((0 : Int) < 408 ∧ g.status ≠ 408) := by simp [hst]
    simp only [GinWriter.writeHeader, if_neg hcond]
    exact hst
  · have hcond : (0 : Int) < 408 ∧ g.status ≠ 408 := ⟨by norm_num, hst⟩
    simp only [GinWriter.writeHeader, if_pos hcond, hnc,
      Bool.false_eq_true, if_false]

lemma defaultResponse_status (g : GinWriter) (hnc : g.committed = false) :
    (defaultResponse g).status = 408 := by
  simp only [defaultResponse]
  rw [ginWrite_status]
  split <;> simp [ginWriteHeader_408_status g hnc]

lemma defaultResponse_body (g : GinWriter) (hb : g.body = []) :
    (defaultResponse g).body = reasonPhrase408 := by
  simp only [defaultResponse]
  rw [ginWrite_body]
  split <;> simp [ginWriteHeader_body, hb]

/-- Claim C1: when the timer fires first and the real writer has not
committed headers, the timeout branch makes the client-visible response
(recorded status and body bytes) exactly what the configured fallback writes
to the real writer — by default status 408 with the standard 408 reason
phrase as body — and when headers were already committed, the branch skips
writing the fallback body (body bytes reach the client unchanged), for any
configured fallback. -/
theorem timeout_substitutes_fallback :
    (∀ tw : TWriter, tw.ResponseWriter.committed = false →
        tw.ResponseWriter.body = [] →
        (timeoutBranch defaultResponse tw).1.ResponseWriter.status = 408
        ∧ (timeoutBranch defaultResponse tw).1.ResponseWriter.body
            = reasonPhrase408)
    ∧ (∀ (response : GinWriter → GinWriter) (tw : TWriter),
        tw.ResponseWriter.committed = false →
        (timeoutBranch response tw).1.ResponseWriter.status
            = (response tw.ResponseWriter).status
        ∧ (timeoutBranch response tw).1.ResponseWriter.body
            = (response tw.ResponseWriter).body)
    ∧ (∀ (response : GinWriter → GinWriter) (tw : TWriter),
        tw.ResponseWriter.committed = true →
        (timeoutBranch response tw).1.ResponseWriter.body
            = tw.ResponseWriter.body) := by
  refine ⟨?_, ?_, ?_⟩
  · intro tw hnc hb
    simp only [timeoutBranch, hnc, Bool.false_eq_true, if_false]
    rw [writeHeader_noop_of_timeout]
    · constructor
      · rw [(writeHeaderNow_rw_of_timeout _ rfl).1]
        exact defaultResponse_status tw.ResponseWriter hnc
      · rw [(writeHeaderNow_rw_of_timeout _ rfl).2]
        exact defaultResponse_body tw.ResponseWriter hb
    · rfl
  · intro response tw hnc
    simp only [timeoutBranch, hnc, Bool.false_eq_true, if_false]
    rw [writeHeader_noop_of_timeout]
    · exact ⟨(writeHeaderNow_rw_of_timeout _ rfl).1,
        (writeHeaderNow_rw_of_timeout _ rfl).2⟩
    · rfl
  · intro response tw hc
    simp only [timeoutBranch, hc, if_true]
    rw [writeHeader_noop_of_timeout]
    · rw [(writeHeaderNow_rw_of_timeout _ rfl).2]
    · rfl

/-- Witness for C1: on a fresh request state the timeout branch produces
status 408 and the `Request Timeout` bytes, and on an already-committed
writer the fallback body write is skipped. -/
theorem timeout_substitutes_fallback_w :
    (timeoutBranch defaultResponse initWriter).1.ResponseWriter.status = 408
    ∧ (timeoutBranch defaultResponse initWriter).1.ResponseWriter.body
        = reasonPhrase408
    ∧ (timeoutBranch defaultResponse
        { initWriter with ResponseWriter :=
            { initWriter.ResponseWriter with
              committed := true, body := [104] } }).1.ResponseWriter.body
        = [104] :=
  ⟨(timeout_substitutes_fallback.1 initWriter rfl rfl).1,
    (timeout_substitutes_fallback.1 initWriter rfl rfl).2,
    timeout_substitutes_fallback.2.2 defaultResponse _ rfl⟩

/-- Claim C3: a non-positive configured timeout makes `New` return the
wrapped unit of work itself (`return t.handler`, `timeout.go` lines
102–104): a pure pass-through with no shadow writer, buffer, or race. -/
theorem nonpositive_timeout_passthrough (opts : List TOption)
    (h : (opts.foldl applyOption initialConfig).timeout ≤ 0) :
    New opts = GuardResult.passThrough
      (opts.foldl applyOption initialConfig).handler := by
  simp only [New]
  rw [if_pos h]

/-- Witness for C3: `WithTimeout 0` yields the configured handler (here the
default `nil`) unchanged. -/
theorem nonpositive_timeout_passthrough_w :
    New [TOption.withTimeout 0] = GuardResult.passThrough none :=
  nonpositive_timeout_passthrough [TOption.withTimeout 0] (by decide)

/-- Claim C9: the race selects exactly one branch, decided by the first
observed event — for every event sequence, the guard ends `done` with the
outcome and state effect of the head event alone, and every later-arriving
signal is ignored (the foreground never visits a second branch). -/
theorem race_exactly_one_branch (response : GinWriter → GinWriter)
    (tw : TWriter) (e : RaceEvent) (evs : List RaceEvent) :
    List.foldl (guardStep response) (GuardPhase.racing tw) (e :: evs)
      = GuardPhase.done (outcomeOf e) (branchEffect response e tw).1 := by
  rw [List.foldl_cons]
  show List.foldl (guardStep response)
      (GuardPhase.done (outcomeOf e) (branchEffect response e tw).1) evs = _
  induction evs with
  | nil => rfl
  | cons e2 rest ih =>
    rw [List.foldl_cons]
    exact ih

/-- Claim C5 counterexample: on the fault path the guard calls `FreeBuffer`
but never `bufPool.Put` (`src/unnamed/part_002` lines 77–94), so a request
whose handler panics returns zero buffers to the pool, not exactly one. -/
theorem buffer_pool_fault_path_counterexample :
    ¬ countPut (guardPoolOps defaultResponse initWriter
        (RaceEvent.panicked 0)) = 1 := by decide

/-- Claim C5 (amended): every guarded request borrows exactly one buffer and
never returns more than one; the success and timeout branches return it
exactly once, but the fault (panic) branch frees it without returning it to
the pool. -/
theorem buffer_pool_discipline (response : GinWriter → GinWriter)
    (tw : TWriter) (e : RaceEvent) :
    countGet (guardPoolOps response tw e) = 1
    ∧ countPut (guardPoolOps response tw e) ≤ 1
    ∧ ((∀ v, e ≠ RaceEvent.panicked v) →
        countPut (guardPoolOps response tw e) = 1)
    ∧ (∀ v, e = RaceEvent.panicked v →
        countPut (guardPoolOps response tw e) = 0) := by
  cases e with
  | finished =>
    refine ⟨rfl, ?_, fun _ => rfl, ?_⟩
    · show (1 : Nat) ≤ 1
      exact le_refl 1
    · intro v hv
      cases hv
  | timerFired =>
    refine ⟨rfl, ?_, fun _ => rfl, ?_⟩
    · show (1 : Nat) ≤ 1
      exact le_refl 1
    · intro v hv
      cases hv
  | panicked v0 =>
    refine ⟨rfl, ?_, ?_, fun v hv => rfl⟩
    · show (0 : Nat) ≤ 1
      omega
    · intro hne
      exact absurd rfl (hne v0)

/-- Witness for the amended C5: a finishing request performs one `Get` and
one `Put`; a panicking request performs one `Get` and no `Put`. -/
theorem buffer_pool_discipline_w :
    countGet (guardPoolOps defaultResponse initWriter RaceEvent.finished) = 1
    ∧ countPut (guardPoolOps defaultResponse initWriter
        RaceEvent.finished) = 1
    ∧ countPut (guardPoolOps defaultResponse initWriter
        (RaceEvent.panicked 0)) = 0 :=
  ⟨(buffer_pool_discipline defaultResponse initWriter RaceEvent.finished).1,
    (buffer_pool_discipline defaultResponse initWriter
      RaceEvent.finished).2.2.1 (fun v hv => by cases hv),
    (buffer_pool_discipline defaultResponse initWriter
      (RaceEvent.panicked 0)).2.2.2 0 rfl⟩

/-- Claim C10 counterexample: when the fast-path slot already caches another
buffer, `Put` stores the new buffer in the inner pool and the next `Get`
returns the cached buffer instead — not the buffer that was just put. -/
theorem pool_put_get_cached_not_same :
    ¬ (((poolCx.Put bufCx).Get).1 = bufCx) := by decide

/-- Claim C10 (amended): for every pool whose fast-path slot is empty,
`Put` immediately followed by `Get` returns the very same buffer with its
contents unchanged (neither operation resets it, so stale bytes survive);
when the slot is occupied, `Get` returns the cached buffer instead. -/
theorem pool_put_get_roundtrip (p : BufferPool) (b : GoBuffer)
    (h : p.last = none) :
    ((p.Put b).Get).1 = b ∧ ((p.Put b).Get).1.data = b.data := by
  simp [BufferPool.Put, BufferPool.Get, h]

/-- Witness for the amended C10: a dirty buffer holding the bytes of
`hello` put into an empty-slot pool comes back identical, stale bytes
included (the repository's `TestBufferPool_NoReset` scenario). -/
theorem pool_put_get_roundtrip_w :
    ((poolW.Put bufW).Get).1 = bufW
    ∧ ((poolW.Put bufW).Get).1.data = [104, 101, 108, 108, 111] :=
  ⟨(pool_put_get_roundtrip poolW bufW rfl).1,
    (pool_put_get_roundtrip poolW bufW rfl).2⟩
